import Mathlib

/-!
Shallow embedding of `cash-flow-lab`'s projection engine
(`src/calculations.py`) over exact rationals.  Each Lean definition
mirrors one Python function; dictionaries become structures, `dict.get`
with a default becomes `Option.getD`, and the engine's loop-carried
variables become an explicit `EngineState` threaded through the month
recursion.
-/

/-- Result of `calculate_wc_components`: dollar balances for AR,
inventory and AP. -/
structure WCComponents where
  ar : ℚ
  inventory : ℚ
  ap : ℚ
deriving DecidableEq

/-- `calculate_wc_components(revenue, cogs_pct, ar_days, ap_days,
inventory_days)` from `src/calculations.py` lines 9-18 (30-day month
convention). -/
def calculate_wc_components (revenue cogs_pct ar_days ap_days inventory_days : ℚ) :
    WCComponents :=
  let cogs := revenue * cogs_pct
  { ar := (revenue / 30) * ar_days
    inventory := (cogs / 30) * inventory_days
    ap := (cogs / 30) * ap_days }

/-- `calculate_ebit` from lines 21-25. -/
def calculate_ebit (revenue cogs_pct opex : ℚ) : ℚ :=
  let cogs := revenue * cogs_pct
  revenue - cogs - opex

/-- `calculate_working_capital` from lines 28-30. -/
def calculate_working_capital (ar inventory ap : ℚ) : ℚ :=
  (ar + inventory) - ap

/-- `calculate_delta_wc` from lines 33-37; `wc_previous` may be `None`. -/
def calculate_delta_wc (wc_current : ℚ) (wc_previous : Option ℚ) : ℚ :=
  match wc_previous with
  | none => wc_current
  | some p => wc_current - p

/-- `calculate_fcf` from lines 40-44. -/
def calculate_fcf (ebit tax_rate depreciation capex delta_wc : ℚ) : ℚ :=
  let nopat := ebit * (1 - tax_rate)
  nopat + depreciation - capex - delta_wc

/-- The `debt_params` dict: loan amount, annual rate, term in months,
and precomputed monthly payment (`src/app.py` lines 476-481). -/
structure DebtParams where
  loan_amount : ℚ
  interest_rate : ℚ
  term_months : ℤ
  monthly_payment : ℚ
deriving DecidableEq

/-- The dict returned by `calculate_debt_service`. -/
structure DebtService where
  interest_expense : ℚ
  principal_payment : ℚ
  remaining_balance : ℚ
deriving DecidableEq

/-- `calculate_debt_service(debt_params, month)` from lines 48-94:
PV-based amortization, recomputed independently each month, with a
dedicated zero-rate branch. -/
def calculate_debt_service (debt_params : Option DebtParams) (month : ℤ) : DebtService :=
  match debt_params with
  | none => { interest_expense := 0, principal_payment := 0, remaining_balance := 0 }
  | some dp =>
    if dp.term_months < month then
      { interest_expense := 0, principal_payment := 0, remaining_balance := 0 }
    else
      let monthly_rate := dp.interest_rate / 12
      let months_remaining : ℤ := dp.term_months - month + 1
      if months_remaining ≤ 0 then
        { interest_expense := 0, principal_payment := 0, remaining_balance := 0 }
      else if monthly_rate = 0 then
        { interest_expense := 0
          principal_payment := dp.monthly_payment
          remaining_balance :=
            max 0 (dp.loan_amount - dp.monthly_payment * ((month : ℚ) - 1)) }
      else
        let remaining_balance :=
          dp.monthly_payment * ((1 - (1 + monthly_rate) ^ (-months_remaining)) / monthly_rate)
        let prev_balance :=
          if 1 < month then
            dp.monthly_payment *
              ((1 - (1 + monthly_rate) ^ (-(months_remaining + 1))) / monthly_rate)
          else dp.loan_amount
        let interest_expense := prev_balance * monthly_rate
        { interest_expense := interest_expense
          principal_payment := dp.monthly_payment - interest_expense
          remaining_balance := remaining_balance }

/-- The dict returned by `calculate_tier1_metrics`. -/
structure Tier1Metrics where
  current_ratio : ℚ
  quick_ratio : ℚ
  days_cash_on_hand : ℚ
  operating_margin : ℚ
deriving DecidableEq

/-- `calculate_tier1_metrics` from lines 97-120: liquidity ratios with
division-by-zero guards. -/
def calculate_tier1_metrics (revenue ebit ar inventory ap cash_balance opex : ℚ) :
    Tier1Metrics :=
  let current_assets := ar + inventory + cash_balance
  let current_liabilities := if 0 < ap then ap else 1
  { current_ratio := current_assets / current_liabilities
    quick_ratio := (current_assets - inventory) / current_liabilities
    days_cash_on_hand := if 0 < opex then cash_balance / (opex / 30) else 0
    operating_margin := if 0 < revenue then ebit / revenue * 100 else 0 }

/-- The `inputs` dict consumed by the engine.  Keys read through
`inputs.get(key, 0)` in the source are `Option`-valued here; keys read
through `inputs[key]` are plain. -/
structure ProjectionInputs where
  revenue : ℚ
  cogs_pct : ℚ
  opex : ℚ
  ar_days : ℚ
  ap_days : ℚ
  inventory_days : ℚ
  capex : ℚ
  depreciation : ℚ
  tax_rate : ℚ
  price_increase : Option ℚ
  cogs_increase : Option ℚ
  opex_increase : Option ℚ
  opening_cash : Option ℚ
deriving DecidableEq

/-- `apply_scenario_adjustments(base_inputs, scenario_type)` from lines
123-140. -/
def apply_scenario_adjustments (base_inputs : ProjectionInputs) (scenario_type : String) :
    ProjectionInputs :=
  if scenario_type = "base" then base_inputs
  else if scenario_type = "conservative" then
    { base_inputs with
      ar_days := base_inputs.ar_days + 10
      ap_days := max 0 (base_inputs.ap_days - 5)
      inventory_days := base_inputs.inventory_days * 1.15 }
  else if scenario_type = "aggressive" then
    { base_inputs with
      ar_days := max 0 (base_inputs.ar_days - 10)
      ap_days := base_inputs.ap_days + 10
      inventory_days := base_inputs.inventory_days * 0.85 }
  else base_inputs

/-- One row of the DataFrame built by `generate_monthly_projections`
(lines 265-293). -/
structure MonthRecord where
  month : ℕ
  revenue : ℚ
  cogs : ℚ
  ebit : ℚ
  interest_expense : ℚ
  ebit_after_interest : ℚ
  ebit_after_tax : ℚ
  ar : ℚ
  inventory : ℚ
  ap : ℚ
  wc : ℚ
  delta_wc : ℚ
  delta_ar : ℚ
  delta_inventory : ℚ
  delta_ap : ℚ
  fcf : ℚ
  principal_payment : ℚ
  fcf_after_debt : ℚ
  debt_balance : ℚ
  dscr : ℚ
  cash_balance : ℚ
  ccc : ℚ
  gross_margin : ℚ
  current_ratio : ℚ
  quick_ratio : ℚ
  days_cash_on_hand : ℚ
  operating_margin : ℚ
deriving DecidableEq, Inhabited

/-- The loop-carried variables of `generate_monthly_projections`:
`wc_previous`, `ar_previous`, `inventory_previous`, `ap_previous`,
`cash_balance`. -/
structure EngineState where
  wc_previous : ℚ
  ar_previous : ℚ
  inventory_previous : ℚ
  ap_previous : ℚ
  cash_balance : ℚ
deriving DecidableEq

/-- The body of the `for month in range(0, num_months + 1)` loop (lines
170-299): builds this month's record and the updated carried state. -/
def projectMonth (inputs : ProjectionInputs) (debt_params : Option DebtParams)
    (st : EngineState) (month : ℕ) : MonthRecord × EngineState :=
  let base_revenue := inputs.revenue
  let price_increase := inputs.price_increase.getD 0
  let base_cogs_pct := inputs.cogs_pct
  let cogs_increase := inputs.cogs_increase.getD 0
  let base_opex := inputs.opex
  let opex_increase := inputs.opex_increase.getD 0
  let current_revenue := base_revenue * (1 + price_increase) ^ month
  let current_cogs_pct := min (base_cogs_pct * (1 + cogs_increase) ^ month) 0.95
  let current_opex := base_opex * (1 + opex_increase) ^ month
  let debt_service :=
    if 0 < month then calculate_debt_service debt_params (month : ℤ)
    else
      { interest_expense := 0, principal_payment := 0
        remaining_balance :=
          match debt_params with
          | some dp => dp.loan_amount
          | none => 0 }
  let ebit := calculate_ebit current_revenue current_cogs_pct current_opex
  let ebit_after_interest := ebit - debt_service.interest_expense
  let ebit_after_tax := ebit_after_interest * (1 - inputs.tax_rate)
  let cogs := current_revenue * current_cogs_pct
  let gross_margin :=
    if 0 < current_revenue then (current_revenue - cogs) / current_revenue * 100 else 0
  let wc_components :=
    calculate_wc_components current_revenue current_cogs_pct
      inputs.ar_days inputs.ap_days inputs.inventory_days
  let wc :=
    calculate_working_capital wc_components.ar wc_components.inventory wc_components.ap
  let delta_wc := if month = 0 then 0 else calculate_delta_wc wc (some st.wc_previous)
  let delta_ar := if month = 0 then 0 else wc_components.ar - st.ar_previous
  let delta_inventory :=
    if month = 0 then 0 else wc_components.inventory - st.inventory_previous
  let delta_ap := if month = 0 then 0 else wc_components.ap - st.ap_previous
  let fcf :=
    calculate_fcf ebit_after_interest inputs.tax_rate inputs.depreciation
      inputs.capex delta_wc
  let fcf_after_debt := fcf - debt_service.principal_payment
  let cash_balance :=
    if 0 < month then st.cash_balance + fcf_after_debt else st.cash_balance
  let ccc := inputs.ar_days + inputs.inventory_days - inputs.ap_days
  let tier1 :=
    calculate_tier1_metrics current_revenue ebit wc_components.ar
      wc_components.inventory wc_components.ap cash_balance current_opex
  let dscr :=
    if debt_params.isSome ∧ 0 < month ∧
        0 < debt_service.interest_expense + debt_service.principal_payment then
      fcf / (debt_service.interest_expense + debt_service.principal_payment)
    else 0
  ({ month := month
     revenue := current_revenue
     cogs := cogs
     ebit := ebit
     interest_expense := debt_service.interest_expense
     ebit_after_interest := ebit_after_interest
     ebit_after_tax := ebit_after_tax
     ar := wc_components.ar
     inventory := wc_components.inventory
     ap := wc_components.ap
     wc := wc
     delta_wc := delta_wc
     delta_ar := delta_ar
     delta_inventory := delta_inventory
     delta_ap := delta_ap
     fcf := fcf
     principal_payment := debt_service.principal_payment
     fcf_after_debt := fcf_after_debt
     debt_balance := debt_service.remaining_balance
     dscr := dscr
     cash_balance := cash_balance
     ccc := ccc
     gross_margin := gross_margin
     current_ratio := tier1.current_ratio
     quick_ratio := tier1.quick_ratio
     days_cash_on_hand := tier1.days_cash_on_hand
     operating_margin := tier1.operating_margin },
   { wc_previous := wc
     ar_previous := wc_components.ar
     inventory_previous := wc_components.inventory
     ap_previous := wc_components.ap
     cash_balance := cash_balance })

/-- The engine's pre-loop initialization (lines 145-167): steady-state
working capital at base revenue and `opening_cash` (default 0). -/
def initState (inputs : ProjectionInputs) : EngineState :=
  let initial_wc :=
    calculate_wc_components inputs.revenue inputs.cogs_pct
      inputs.ar_days inputs.ap_days inputs.inventory_days
  { wc_previous :=
      calculate_working_capital initial_wc.ar initial_wc.inventory initial_wc.ap
    ar_previous := initial_wc.ar
    inventory_previous := initial_wc.inventory
    ap_previous := initial_wc.ap
    cash_balance := inputs.opening_cash.getD 0 }

/-- The loop of `generate_monthly_projections`, unrolled as structural
recursion: emit `k` records starting at month index `m`, threading the
carried state. -/
def monthsFrom (inputs : ProjectionInputs) (debt_params : Option DebtParams)
    (st : EngineState) (m : ℕ) : ℕ → List MonthRecord
  | 0 => []
  | k + 1 =>
    let step := projectMonth inputs debt_params st m
    step.1 :: monthsFrom inputs debt_params step.2 (m + 1) k

/-- `generate_monthly_projections(inputs, num_months, debt_params)` from
lines 143-301: months `0 .. num_months` inclusive. -/
def generate_monthly_projections (inputs : ProjectionInputs) (num_months : ℕ)
    (debt_params : Option DebtParams) : List MonthRecord :=
  monthsFrom inputs debt_params (initState inputs) 0 (num_months + 1)

/-- The worked example's inputs (§8 of the spec): price growth 10%,
opening cash 100000, no cost inflation keys. -/
def c1Inputs : ProjectionInputs :=
  { revenue := 100000, cogs_pct := 0.60, opex := 20000,
    ar_days := 45, ap_days := 30, inventory_days := 60,
    capex := 5000, depreciation := 4000, tax_rate := 0.25,
    price_increase := some 0.10, cogs_increase := none,
    opex_increase := none, opening_cash := some 100000 }

/-- Month-1 record of the worked example. -/
def c1rec : MonthRecord :=
  ((generate_monthly_projections c1Inputs 1 none).get? 1).getD default

/-- Month-0 record of the worked example. -/
def c2rec0 : MonthRecord :=
  ((generate_monthly_projections c1Inputs 1 none).get? 0).getD default

/-- Month-1 record of the worked example (separate copy for the
cash-identity witness). -/
def c2rec1 : MonthRecord :=
  ((generate_monthly_projections c1Inputs 1 none).get? 1).getD default

/-- A concrete base parameter record with no growth keys, for the
scenario-adjustment claims. -/
def c9Base : ProjectionInputs :=
  { revenue := 100000, cogs_pct := 0.60, opex := 20000,
    ar_days := 45, ap_days := 30, inventory_days := 60,
    capex := 5000, depreciation := 4000, tax_rate := 0.25,
    price_increase := none, cogs_increase := none,
    opex_increase := none, opening_cash := none }

/-- A concrete zero-interest loan: 1200 over 12 months, payment
`1200/12 = 100`. -/
def c3dp : DebtParams :=
  { loan_amount := 1200, interest_rate := 0, term_months := 12, monthly_payment := 100 }

lemma projectMonth_month (i : ProjectionInputs) (dp : Option DebtParams)
    (st : EngineState) (m : ℕ) : (projectMonth i dp st m).1.month = m := rfl

lemma projectMonth_state_cash (i : ProjectionInputs) (dp : Option DebtParams)
    (st : EngineState) (m : ℕ) :
    (projectMonth i dp st m).2.cash_balance = (projectMonth i dp st m).1.cash_balance := rfl

lemma projectMonth_cash_succ (i : ProjectionInputs) (dp : Option DebtParams)
    (st : EngineState) (m : ℕ) :
    (projectMonth i dp st (m + 1)).1.cash_balance
      = st.cash_balance + (projectMonth i dp st (m + 1)).1.fcf_after_debt := by
  simp [projectMonth]

lemma projectMonth_cogs (i : ProjectionInputs) (dp : Option DebtParams)
    (st : EngineState) (m : ℕ) :
    (projectMonth i dp st m).1.cogs
      = (projectMonth i dp st m).1.revenue
          * min (i.cogs_pct * (1 + i.cogs_increase.getD 0) ^ m) 0.95 := rfl

lemma projectMonth_fcf (i : ProjectionInputs) (dp : Option DebtParams)
    (st : EngineState) (m : ℕ) :
    (projectMonth i dp st m).1.fcf
      = (projectMonth i dp st m).1.ebit_after_tax + i.depreciation - i.capex
          - (projectMonth i dp st m).1.delta_wc := rfl

lemma monthsFrom_map_month (i : ProjectionInputs) (dp : Option DebtParams) :
    ∀ (k : ℕ) (st : EngineState) (m : ℕ),
      (monthsFrom i dp st m k).map MonthRecord.month = List.range' m k := by
  intro k
  induction k with
  | zero => intro st m; simp [monthsFrom]
  | succ k ih =>
    intro st m
    simp [monthsFrom, List.range'_succ, ih, projectMonth_month]

lemma monthsFrom_length (i : ProjectionInputs) (dp : Option DebtParams)
    (k : ℕ) (st : EngineState) (m : ℕ) : (monthsFrom i dp st m k).length = k := by
  have := congrArg List.length (monthsFrom_map_month i dp k st m)
  simpa using this

lemma monthsFrom_cash_chain (i : ProjectionInputs) (dp : Option DebtParams) :
    ∀ (k : ℕ) (st : EngineState) (m j : ℕ) (r r' : MonthRecord),
      (monthsFrom i dp st m k).get? j = some r →
      (monthsFrom i dp st m k).get? (j + 1) = some r' →
      r'.cash_balance = r.cash_balance + r'.fcf_after_debt := by
  intro k
  induction k with
  | zero => intro st m j r r' h1 _; simp [monthsFrom] at h1
  | succ k ih =>
    intro st m j r r' h1 h2
    match j with
    | 0 =>
      simp [monthsFrom] at h1 h2
      match k, h2 with
      | k' + 1, h2 =>
        simp [monthsFrom] at h2
        subst h1
        rw [← h2, projectMonth_cash_succ, projectMonth_state_cash]
    | j' + 1 =>
      simp only [monthsFrom, List.get?_cons_succ] at h1 h2
      exact ih _ _ _ r r' h1 h2

lemma monthsFrom_mem (i : ProjectionInputs) (dp : Option DebtParams) :
    ∀ (k : ℕ) (st : EngineState) (m : ℕ) (r : MonthRecord),
      r ∈ monthsFrom i dp st m k →
      ∃ st2 m2, r = (projectMonth i dp st2 m2).1 := by
  intro k
  induction k with
  | zero => intro st m r h; simp [monthsFrom] at h
  | succ k ih =>
    intro st m r h
    simp only [monthsFrom, List.mem_cons] at h
    rcases h with h | h
    · exact ⟨st, m, h⟩
    · exact ih _ _ r h

lemma monthsFrom_congr (i1 i2 : ProjectionInputs) (dp : Option DebtParams)
    (h : ∀ st m, projectMonth i1 dp st m = projectMonth i2 dp st m) :
    ∀ (k : ℕ) (st : EngineState) (m : ℕ),
      monthsFrom i1 dp st m k = monthsFrom i2 dp st m k := by
  intro k
  induction k with
  | zero => intro st m; rfl
  | succ k ih =>
    intro st m
    simp only [monthsFrom]
    rw [h st m, ih]

lemma generate_congr (i1 i2 : ProjectionInputs) (dp : Option DebtParams)
    (hst : initState i1 = initState i2)
    (h : ∀ st m, projectMonth i1 dp st m = projectMonth i2 dp st m) (N : ℕ) :
    generate_monthly_projections i1 N dp = generate_monthly_projections i2 N dp := by
  rw [generate_monthly_projections, generate_monthly_projections, hst]
  exact monthsFrom_congr i1 i2 dp h (N + 1) (initState i2) 0

/-- C1: end-to-end worked example.  With revenue 100000, cogs_pct 0.60,
opex 20000, ar/ap/inventory days 45/30/60, capex 5000, depreciation
4000, tax_rate 0.25, price_increase 0.10, opening_cash 100000, no debt
and one projected month, the month-1 record has revenue 110000, cogs
66000, ebit 24000, ar 165000, inventory 132000, ap 66000, wc 231000,
delta_wc 21000, fcf -4000 and cash_balance 96000. -/
theorem end_to_end_example :
    c1rec.revenue = 110000 ∧ c1rec.cogs = 66000 ∧ c1rec.ebit = 24000 ∧
    c1rec.ar = 165000 ∧ c1rec.inventory = 132000 ∧ c1rec.ap = 66000 ∧
    c1rec.wc = 231000 ∧ c1rec.delta_wc = 21000 ∧ c1rec.fcf = -4000 ∧
    c1rec.cash_balance = 96000 := by
  norm_num [c1rec, c1Inputs, generate_monthly_projections, monthsFrom, projectMonth,
    initState, calculate_wc_components, calculate_working_capital, calculate_ebit,
    calculate_delta_wc, calculate_fcf, calculate_tier1_metrics, calculate_debt_service]

/-- C2: cumulative cash identity.  For every input and every month index
`i` with `1 ≤ i ≤ num_months`, the emitted records satisfy
`cash_balance[i] = cash_balance[i-1] + fcf_after_debt[i]`. -/
theorem cash_balance_cumulative_identity (inputs : ProjectionInputs)
    (num_months : ℕ) (debt_params : Option DebtParams) (i : ℕ)
    (hi1 : 1 ≤ i) (hi2 : i ≤ num_months) (r r' : MonthRecord)
    (h1 : (generate_monthly_projections inputs num_months debt_params).get? (i - 1) = some r)
    (h2 : (generate_monthly_projections inputs num_months debt_params).get? i = some r') :
    r'.cash_balance = r.cash_balance + r'.fcf_after_debt := by
  obtain ⟨j, rfl⟩ : ∃ j, i = j + 1 := ⟨i - 1, (Nat.succ_pred_eq_of_pos hi1).symm⟩
  simp only [Nat.add_sub_cancel] at h1
  exact monthsFrom_cash_chain inputs debt_params (num_months + 1) (initState inputs) 0 j r r' h1 h2

/-- Witness for C2 at the worked example's inputs, `i = 1`. -/
theorem cash_balance_cumulative_identity_witness :
    c2rec1.cash_balance = c2rec0.cash_balance + c2rec1.fcf_after_debt :=
  cash_balance_cumulative_identity c1Inputs 1 none 1 (le_refl 1) (le_refl 1)
    c2rec0 c2rec1 rfl rfl

/-- Counterexample to C3 as stated: for the zero-interest loan of 1200
over 12 months (payment 100 = 1200/12), `remaining_balance` at
`month = term_months` is 100, not 0. -/
theorem zero_interest_reaches_zero_counterexample :
    c3dp.interest_rate = 0 ∧
    c3dp.monthly_payment = c3dp.loan_amount / (c3dp.term_months : ℚ) ∧
    (calculate_debt_service (some c3dp) c3dp.term_months).remaining_balance = 100 ∧
    (calculate_debt_service (some c3dp) c3dp.term_months).remaining_balance ≠ 0 := by
  refine ⟨rfl, by norm_num [c3dp], ?_, ?_⟩ <;>
    norm_num [calculate_debt_service, c3dp]

/-- C3 amended: zero-interest linear amortization.  For
`interest_rate = 0`, `monthly_payment = loan_amount / term_months`,
`term_months > 0` and `loan_amount ≥ 0`: `remaining_balance` at months
`1 .. term_months` is `loan_amount - monthly_payment * (month - 1)`,
decreasing by exactly `monthly_payment` each successive month; it equals
`monthly_payment` (not 0) at `month = term_months`, and 0 for every
month past the term. -/
theorem zero_interest_linear_amortization (dp : DebtParams)
    (h0 : dp.interest_rate = 0)
    (hpay : dp.monthly_payment = dp.loan_amount / (dp.term_months : ℚ))
    (hn : 0 < dp.term_months)
    (hL : 0 ≤ dp.loan_amount) :
    (∀ month : ℤ, 1 ≤ month → month ≤ dp.term_months →
      (calculate_debt_service (some dp) month).remaining_balance
        = dp.loan_amount - dp.monthly_payment * ((month : ℚ) - 1)) ∧
    (∀ month : ℤ, 1 ≤ month → month < dp.term_months →
      (calculate_debt_service (some dp) (month + 1)).remaining_balance
        = (calculate_debt_service (some dp) month).remaining_balance - dp.monthly_payment) ∧
    (calculate_debt_service (some dp) dp.term_months).remaining_balance
      = dp.monthly_payment ∧
    (∀ month : ℤ, dp.term_months < month →
      (calculate_debt_service (some dp) month).remaining_balance = 0) := by
  have hnQ : (0 : ℚ) < (dp.term_months : ℚ) := by exact_mod_cast hn
  have hrate : dp.interest_rate / 12 = 0 := by rw [h0]; norm_num
  have key : ∀ month : ℤ, 1 ≤ month → month ≤ dp.term_months →
      (calculate_debt_service (some dp) month).remaining_balance
        = dp.loan_amount - dp.monthly_payment * ((month : ℚ) - 1) := by
    intro m hm1 hm2
    have hg1 : ¬ dp.term_months < m := not_lt.mpr hm2
    have hg2 : ¬ (dp.term_months - m + 1 ≤ 0) := by omega
    simp only [calculate_debt_service, if_neg hg1, if_neg hg2, if_pos hrate]
    apply max_eq_right
    have hc : (m : ℚ) ≤ (dp.term_months : ℚ) := by exact_mod_cast hm2
    have hdiv : 0 ≤ dp.loan_amount / (dp.term_months : ℚ) :=
      div_nonneg hL (le_of_lt hnQ)
    have heq : dp.loan_amount - dp.loan_amount / (dp.term_months : ℚ) * ((m : ℚ) - 1)
        = dp.loan_amount / (dp.term_months : ℚ) * ((dp.term_months : ℚ) - ((m : ℚ) - 1)) := by
      field_simp
      ring
    rw [hpay, heq]
    exact mul_nonneg hdiv (by linarith)
  refine ⟨key, fun m hm1 hm2 => ?_, ?_, fun m hm => ?_⟩
  · rw [key (m + 1) (by omega) (by omega), key m hm1 (le_of_lt hm2)]
    push_cast
    ring
  · rw [key dp.term_months (by omega) (le_refl _), hpay]
    field_simp
    ring
  · simp only [calculate_debt_service, if_pos hm]

/-- Witness for the amended C3 at the concrete 1200/12-month loan:
the final in-term month's balance equals the monthly payment. -/
theorem zero_interest_linear_amortization_witness :
    (calculate_debt_service (some c3dp) c3dp.term_months).remaining_balance
      = c3dp.monthly_payment :=
  (zero_interest_linear_amortization c3dp rfl (by norm_num [c3dp])
    (by norm_num [c3dp]) (by norm_num [c3dp])).2.2.1

/-- Counterexample to C4 as stated: at `ap = 1/2` the code divides by
`ap` itself (giving a current ratio of 2 for assets of 1), not by
`max(ap, 1)` (which would give 1). -/
theorem liquidity_ratio_max_counterexample :
    (calculate_tier1_metrics 1 1 1 0 (1 / 2) 0 1).current_ratio = 2 ∧
    (calculate_tier1_metrics 1 1 1 0 (1 / 2) 0 1).current_ratio
      ≠ (1 + 0 + 0) / max ((1 : ℚ) / 2) 1 := by
  constructor <;> norm_num [calculate_tier1_metrics]

/-- C4 amended: the denominator of both liquidity ratios is `ap` itself
when `ap > 0` and the substitute 1 only when `ap ≤ 0`; this agrees with
`max(ap, 1)` exactly on the intended domain `ap = 0` or `ap ≥ 1`. -/
theorem liquidity_ratio_guard (revenue ebit ar inventory ap cash_balance opex : ℚ) :
    (calculate_tier1_metrics revenue ebit ar inventory ap cash_balance opex).current_ratio
      = (ar + inventory + cash_balance) / (if 0 < ap then ap else 1) ∧
    (calculate_tier1_metrics revenue ebit ar inventory ap cash_balance opex).quick_ratio
      = (ar + inventory + cash_balance - inventory) / (if 0 < ap then ap else 1) ∧
    ((ap = 0 ∨ 1 ≤ ap) → (if 0 < ap then ap else 1) = max ap 1) := by
  refine ⟨rfl, rfl, fun h => ?_⟩
  rcases h with h | h
  · subst h
    norm_num
  · rw [if_pos (lt_of_lt_of_le one_pos h), max_eq_left h]

/-- C5: the month-0 record always has all four working-capital deltas
equal to 0 and `cash_balance` equal to the `opening_cash` input
(default 0 when absent). -/
theorem month0_baseline (inputs : ProjectionInputs) (num_months : ℕ)
    (debt_params : Option DebtParams) (r : MonthRecord)
    (h : (generate_monthly_projections inputs num_months debt_params).get? 0 = some r) :
    r.delta_wc = 0 ∧ r.delta_ar = 0 ∧ r.delta_inventory = 0 ∧ r.delta_ap = 0 ∧
    r.cash_balance = inputs.opening_cash.getD 0 := by
  have hr : r = (projectMonth inputs debt_params (initState inputs) 0).1 := by
    simp [generate_monthly_projections, monthsFrom] at h
    exact h.symm
  subst hr
  exact ⟨rfl, rfl, rfl, rfl, rfl⟩

/-- Witness for C5 at the worked example's inputs. -/
theorem month0_baseline_witness :
    c2rec0.delta_wc = 0 ∧ c2rec0.delta_ar = 0 ∧ c2rec0.delta_inventory = 0 ∧
    c2rec0.delta_ap = 0 ∧ c2rec0.cash_balance = c1Inputs.opening_cash.getD 0 :=
  month0_baseline c1Inputs 1 none c2rec0 rfl

/-- C6: the effective COGS fraction of every emitted record is the
clamped `min(base_cogs_pct * (1+cogs_increase)^month, 0.95) ≤ 0.95`, so
any record with non-negative revenue has `cogs ≤ 0.95 * revenue`. -/
theorem cogs_clamp (inputs : ProjectionInputs) (num_months : ℕ)
    (debt_params : Option DebtParams) (i : ℕ) (r : MonthRecord)
    (h : (generate_monthly_projections inputs num_months debt_params).get? i = some r) :
    min (inputs.cogs_pct * (1 + inputs.cogs_increase.getD 0) ^ r.month) (0.95 : ℚ) ≤ 0.95 ∧
    r.cogs = r.revenue * min (inputs.cogs_pct * (1 + inputs.cogs_increase.getD 0) ^ r.month) 0.95 ∧
    (0 ≤ r.revenue → r.cogs ≤ 0.95 * r.revenue) := by
  obtain ⟨st2, m2, rfl⟩ :=
    monthsFrom_mem inputs debt_params (num_months + 1) (initState inputs) 0 r (List.get?_mem h)
  refine ⟨min_le_right _ _, rfl, fun hrev => ?_⟩
  rw [projectMonth_cogs, mul_comm (0.95 : ℚ)]
  exact mul_le_mul_of_nonneg_left (min_le_right _ _) hrev

/-- Witness for C6 at the worked example's inputs, record 1. -/
theorem cogs_clamp_witness :
    min (c1Inputs.cogs_pct * (1 + c1Inputs.cogs_increase.getD 0) ^ c1rec.month) (0.95 : ℚ) ≤ 0.95 ∧
    c1rec.cogs = c1rec.revenue
      * min (c1Inputs.cogs_pct * (1 + c1Inputs.cogs_increase.getD 0) ^ c1rec.month) 0.95 ∧
    (0 ≤ c1rec.revenue → c1rec.cogs ≤ 0.95 * c1rec.revenue) :=
  cogs_clamp c1Inputs 1 none 1 c1rec rfl

/-- C7: the projection returns exactly `num_months + 1` records whose
`month` fields are `0, 1, ..., num_months` in increasing order. -/
theorem projection_length_and_month_order (inputs : ProjectionInputs)
    (num_months : ℕ) (debt_params : Option DebtParams) :
    (generate_monthly_projections inputs num_months debt_params).length = num_months + 1 ∧
    (generate_monthly_projections inputs num_months debt_params).map MonthRecord.month
      = List.range (num_months + 1) := by
  constructor
  · exact monthsFrom_length inputs debt_params (num_months + 1) (initState inputs) 0
  · rw [generate_monthly_projections, monthsFrom_map_month, List.range_eq_range']

/-- C8: every emitted record satisfies
`fcf = ebit_after_tax + depreciation - capex - delta_wc`: applying the
tax factor inside the FCF formula coincides with reusing the record's
`ebit_after_tax` field. -/
theorem fcf_tax_path_equivalence (inputs : ProjectionInputs) (num_months : ℕ)
    (debt_params : Option DebtParams) (i : ℕ) (r : MonthRecord)
    (h : (generate_monthly_projections inputs num_months debt_params).get? i = some r) :
    r.fcf = r.ebit_after_tax + inputs.depreciation - inputs.capex - r.delta_wc := by
  obtain ⟨st2, m2, rfl⟩ :=
    monthsFrom_mem inputs debt_params (num_months + 1) (initState inputs) 0 r (List.get?_mem h)
  exact projectMonth_fcf inputs debt_params st2 m2

/-- Witness for C8 at the worked example's inputs, record 1. -/
theorem fcf_tax_path_equivalence_witness :
    c1rec.fcf = c1rec.ebit_after_tax + c1Inputs.depreciation - c1Inputs.capex - c1rec.delta_wc :=
  fcf_tax_path_equivalence c1Inputs 1 none 1 c1rec rfl

/-- C9: re-applying `apply_scenario_adjustments` with the same kind
compounds: conservative twice adds 20 to `ar_days`, so the result
differs from a single application — the adjustment is not idempotent. -/
theorem scenario_reapplication_compounds :
    (apply_scenario_adjustments (apply_scenario_adjustments c9Base "conservative")
        "conservative").ar_days = c9Base.ar_days + 20 ∧
    apply_scenario_adjustments (apply_scenario_adjustments c9Base "conservative")
        "conservative" ≠ apply_scenario_adjustments c9Base "conservative" := by
  have hcons : ∀ b : ProjectionInputs,
      apply_scenario_adjustments b "conservative"
        = { b with ar_days := b.ar_days + 10
                   ap_days := max 0 (b.ap_days - 5)
                   inventory_days := b.inventory_days * 1.15 } := by
    intro b
    rw [apply_scenario_adjustments, if_neg (by decide), if_pos rfl]
  have once : (apply_scenario_adjustments c9Base "conservative").ar_days = 55 := by
    simp only [hcons]; norm_num [c9Base]
  have twice :
      (apply_scenario_adjustments (apply_scenario_adjustments c9Base "conservative")
        "conservative").ar_days = 65 := by
    simp only [hcons]; norm_num [c9Base]
  refine ⟨by rw [twice]; norm_num [c9Base], fun hc => ?_⟩
  have h2 := congrArg ProjectionInputs.ar_days hc
  rw [once, twice] at h2
  norm_num at h2

/-- C10: omitting any of `price_increase`, `cogs_increase`,
`opex_increase`, `opening_cash` (the keys read through
`inputs.get(key, 0)`) produces the same projections as supplying 0. -/
theorem missing_keys_default_to_zero (inputs : ProjectionInputs) (num_months : ℕ)
    (debt_params : Option DebtParams) :
    generate_monthly_projections { inputs with price_increase := none } num_months debt_params
      = generate_monthly_projections { inputs with price_increase := some 0 } num_months debt_params ∧
    generate_monthly_projections { inputs with cogs_increase := none } num_months debt_params
      = generate_monthly_projections { inputs with cogs_increase := some 0 } num_months debt_params ∧
    generate_monthly_projections { inputs with opex_increase := none } num_months debt_params
      = generate_monthly_projections { inputs with opex_increase := some 0 } num_months debt_params ∧
    generate_monthly_projections { inputs with opening_cash := none } num_months debt_params
      = generate_monthly_projections { inputs with opening_cash := some 0 } num_months debt_params := by
  refine
    ⟨generate_congr { inputs with price_increase := none }
        { inputs with price_increase := some 0 } debt_params rfl (fun st m => rfl) num_months,
      generate_congr { inputs with cogs_increase := none }
        { inputs with cogs_increase := some 0 } debt_params rfl (fun st m => rfl) num_months,
      generate_congr { inputs with opex_increase := none }
        { inputs with opex_increase := some 0 } debt_params rfl (fun st m => rfl) num_months,
      generate_congr { inputs with opening_cash := none }
        { inputs with opening_cash := some 0 } debt_params rfl (fun st m => rfl) num_months⟩
